import Mathlib

/-!
Shallow embedding of `src/TestRunner/TestRunner.py` (class `TestRunner` and
`main`), verifying the repository's specification claims.

Modelling conventions:
* A test case is a JSON object with optional `name`/`input`/`expected`
  fields; `dict.get(k, d)` becomes `Option.getD`.
* The subject binary is abstracted as a function `String → ExecBehavior`:
  given the text written to its standard input, the spawned child either
  completes with captured stdout/stderr and an exit code, raises
  `subprocess.TimeoutExpired`, or raises some other exception with a
  message.  `run_single_test`'s `try/except` structure becomes a total
  match over these behaviours.
* The numeric timeout is modelled as a `Nat` (Python formats a float; the
  claims depend only on the limit appearing in the message).
* Console output is modelled as structured lines (`OutputLine`), since the
  claims concern which lines are emitted, not terminal escape codes.
-/

namespace TestRunnerSpec

/-- Python's whitespace class for `str.strip()` on ASCII text:
space, tab, newline, carriage return, vertical tab, form feed. -/
def pyIsSpace (c : Char) : Bool :=
  c = ' ' || c = '\t' || c = '\n' || c = '\r' || c = Char.ofNat 11 || c = Char.ofNat 12

/-- Python `str.strip()` with no argument: removes whitespace from BOTH ends. -/
def pyStrip (s : String) : String :=
  ⟨((s.data.dropWhile pyIsSpace).reverse.dropWhile pyIsSpace).reverse⟩

/-- Trailing-only trim (`str.rstrip()`); modelled from the spec's words
"strips trailing whitespace (including trailing newline)", used only to
compare the spec's described evaluator with the code's actual one. -/
def pyRStrip (s : String) : String :=
  ⟨(s.data.reverse.dropWhile pyIsSpace).reverse⟩

/-- A test case record from the suite JSON file: all three fields optional. -/
structure TestCase where
  name : Option String
  input : Option String
  expected : Option String
deriving DecidableEq, Repr

/-- What happens when the subject binary is spawned and fed one input:
`completed` = `Popen` + `communicate` return stdout, stderr and an exit code;
`timeoutExpired` = `communicate` raises `subprocess.TimeoutExpired`;
`raised msg` = `Popen` or anything else raises an exception whose
`str(e)` is `msg`. -/
inductive ExecBehavior where
  | completed (stdout stderr : String) (exitCode : Int)
  | timeoutExpired
  | raised (msg : String)
deriving DecidableEq, Repr

/-- The triple returned by `TestRunner.run_single_test`:
`(passed, actual, error)`; `actual`/`error` are `None` or a string. -/
structure SingleResult where
  passed : Bool
  actual : Option String
  error : Option String
deriving DecidableEq, Repr

/-- `TestRunner.run_single_test` (TestRunner.py lines 35-65).
`bin` maps the text piped to the child's stdin to the child's behaviour. -/
def run_single_test (timeout : Nat) (test_case : TestCase)
    (bin : String → ExecBehavior) : SingleResult :=
  let _test_name := test_case.name.getD "Unnamed test"
  let input_data := test_case.input.getD ""
  let expected_output := pyStrip (test_case.expected.getD "")
  match bin input_data with
  | ExecBehavior.completed stdout _ _ =>
      let actual_output := pyStrip stdout
      if actual_output = expected_output then
        { passed := true, actual := some actual_output, error := none }
      else
        { passed := false, actual := some actual_output, error := some "Output mismatch" }
  | ExecBehavior.timeoutExpired =>
      { passed := false, actual := none,
        error := some ("Timeout (" ++ toString timeout ++ "s)") }
  | ExecBehavior.raised msg =>
      { passed := false, actual := none, error := some ("Error: " ++ msg) }

/-- Whether the exception-handling path invokes `process.kill()`
(TestRunner.py line 62: only the `subprocess.TimeoutExpired` branch does). -/
def killsChild : ExecBehavior → Bool
  | ExecBehavior.timeoutExpired => true
  | _ => false

/-- One entry of `self.results['failures']` (TestRunner.py lines 89-95). -/
structure FailureInfo where
  test : String
  input : String
  expected : String
  actual : Option String
  error : Option String
deriving DecidableEq, Repr

/-- The `self.results` dictionary (TestRunner.py lines 19-24). -/
structure Results where
  passed : Nat
  failed : Nat
  total : Nat
  failures : List FailureInfo
deriving DecidableEq, Repr

/-- Initial `self.results` from `__init__`. -/
def initResults : Results :=
  { passed := 0, failed := 0, total := 0, failures := [] }

/-- A suite paired with the behaviour the subject binary exhibits on each run. -/
abbrev Suite := List (TestCase × (String → ExecBehavior))

/-- One iteration of the loop body of `run_all_tests`
(TestRunner.py lines 72-96); `i` is the 1-based `enumerate` index. -/
def processTest (timeout : Nat) (r : Results) (i : Nat) (test_case : TestCase)
    (bin : String → ExecBehavior) : Results :=
  let test_name := test_case.name.getD ("Test " ++ toString i)
  let res := run_single_test timeout test_case bin
  let r1 := { r with total := r.total + 1 }
  if res.passed then
    { r1 with passed := r1.passed + 1 }
  else
    let failure_info : FailureInfo :=
      { test := test_name
        input := test_case.input.getD ""
        expected := test_case.expected.getD ""
        actual := res.actual
        error := res.error }
    { r1 with failed := r1.failed + 1, failures := r1.failures ++ [failure_info] }

/-- The loop of `run_all_tests` starting at index `i` with accumulated `r`. -/
def runFrom (timeout : Nat) (i : Nat) (r : Results) : Suite → Results
  | [] => r
  | (tc, bin) :: rest => runFrom timeout (i + 1) (processTest timeout r i tc bin) rest

/-- `TestRunner.run_all_tests` (TestRunner.py lines 67-99):
`for i, test_case in enumerate(tests['test_cases'], 1)` over fresh results. -/
def run_all_tests (timeout : Nat) (suite : Suite) : Results :=
  runFrom timeout 1 initResults suite

/-- The return value of `TestRunner.print_summary` (TestRunner.py line 130). -/
def print_summary_exit (r : Results) : Nat :=
  if r.failed = 0 then 0 else 1

/-- `main` (TestRunner.py lines 144-152): a startup exception (binary or
suite file missing, unreadable suite) is caught and the process exits 1;
otherwise the run completes and exits with `print_summary`'s value. -/
def mainExit (timeout : Nat) (startup : Except String Suite) : Nat :=
  match startup with
  | Except.error _ => 1
  | Except.ok suite => print_summary_exit (run_all_tests timeout suite)

/-- A console line, abstracting the formatted/coloured output. -/
inductive OutputLine where
  | bullet (testName : String)
  | inputLine (s : String)
  | expectedLine (s : String)
  | actualLine (s : String)
  | errorLine (s : String)
  | detailsHeader (testName : String)
  | blank
deriving DecidableEq, Repr

/-- The lines `print_summary` emits for one failure record
(TestRunner.py lines 119-126): `Actual` only when `actual is not None`,
`Error` only when the error string is truthy. -/
def summaryFailureLines (failure : FailureInfo) : List OutputLine :=
  [OutputLine.bullet failure.test,
   OutputLine.inputLine failure.input,
   OutputLine.expectedLine failure.expected]
  ++ (match failure.actual with
      | some a => [OutputLine.actualLine a]
      | none => [])
  ++ (match failure.error with
      | some e => if e = "" then [] else [OutputLine.errorLine e]
      | none => [])

/-- `TestRunner.print_failure_details` (TestRunner.py lines 101-109),
the verbose per-failure detail block. -/
def print_failure_details (failure : FailureInfo) : List OutputLine :=
  [OutputLine.detailsHeader failure.test,
   OutputLine.inputLine failure.input,
   OutputLine.expectedLine failure.expected]
  ++ (match failure.actual with
      | some a => [OutputLine.actualLine a]
      | none => [])
  ++ (match failure.error with
      | some e => if e = "" then [] else [OutputLine.errorLine e]
      | none => [])
  ++ [OutputLine.blank]

/-- Number of suite entries whose single-test run passes. -/
def passCount (timeout : Nat) (l : Suite) : Nat :=
  (l.filter (fun p => (run_single_test timeout p.1 p.2).passed)).length

/-- Number of suite entries whose single-test run does not pass. -/
def failCount (timeout : Nat) (l : Suite) : Nat :=
  (l.filter (fun p => !(run_single_test timeout p.1 p.2).passed)).length

/-- The failure records the loop appends, starting at index `i`. -/
def failuresFrom (timeout i : Nat) : Suite → List FailureInfo
  | [] => []
  | (tc, bin) :: rest =>
      let res := run_single_test timeout tc bin
      (if res.passed then []
       else [{ test := tc.name.getD ("Test " ++ toString i)
               input := tc.input.getD ""
               expected := tc.expected.getD ""
               actual := res.actual
               error := res.error }])
      ++ failuresFrom timeout (i + 1) rest

/-! ## Structural lemmas about the run loop -/

theorem runFrom_eq (timeout : Nat) (l : Suite) :
    ∀ (i : Nat) (r : Results),
      runFrom timeout i r l =
        { passed := r.passed + passCount timeout l
          failed := r.failed + failCount timeout l
          total := r.total + l.length
          failures := r.failures ++ failuresFrom timeout i l } := by
  induction l with
  | nil =>
      intro i r
      simp [runFrom, passCount, failCount, failuresFrom]
  | cons hd tl ih =>
      intro i r
      obtain ⟨tc, bin⟩ := hd
      rw [runFrom, ih]
      by_cases h : (run_single_test timeout tc bin).passed
      · simp [processTest, passCount, failCount, failuresFrom, h, Results.mk.injEq]
        omega
      · simp only [Bool.not_eq_true] at h
        simp [processTest, passCount, failCount, failuresFrom, h, Results.mk.injEq]
        omega

theorem run_all_tests_eq (timeout : Nat) (suite : Suite) :
    run_all_tests timeout suite =
      { passed := passCount timeout suite
        failed := failCount timeout suite
        total := suite.length
        failures := failuresFrom timeout 1 suite } := by
  rw [run_all_tests, runFrom_eq]
  simp [initResults]

theorem passCount_add_failCount (timeout : Nat) (l : Suite) :
    passCount timeout l + failCount timeout l = l.length := by
  induction l with
  | nil => simp [passCount, failCount]
  | cons hd tl ih =>
      by_cases h : (run_single_test timeout hd.1 hd.2).passed
      · simp only [passCount, failCount, List.filter_cons] at ih ⊢
        simp [h]; omega
      · simp only [Bool.not_eq_true] at h
        simp only [passCount, failCount, List.filter_cons] at ih ⊢
        simp [h]; omega

theorem failuresFrom_length (timeout : Nat) (l : Suite) :
    ∀ i : Nat, (failuresFrom timeout i l).length = failCount timeout l := by
  induction l with
  | nil => intro i; simp [failuresFrom, failCount]
  | cons hd tl ih =>
      intro i
      obtain ⟨tc, bin⟩ := hd
      by_cases h : (run_single_test timeout tc bin).passed
      · simp [failuresFrom, failCount, List.filter_cons, h, ih (i + 1)]
      · simp only [Bool.not_eq_true] at h
        simp only [failuresFrom, failCount, List.filter_cons, h] at ih ⊢
        simp [ih (i + 1), failCount]

theorem failuresFrom_enum (timeout : Nat) (l : Suite) :
    ∀ i : Nat,
      failuresFrom timeout i l =
        ((l.enumFrom i).filter
            (fun p => !(run_single_test timeout p.2.1 p.2.2).passed)).map
          (fun p =>
            { test := p.2.1.name.getD ("Test " ++ toString p.1)
              input := p.2.1.input.getD ""
              expected := p.2.1.expected.getD ""
              actual := (run_single_test timeout p.2.1 p.2.2).actual
              error := (run_single_test timeout p.2.1 p.2.2).error }) := by
  induction l with
  | nil => intro i; simp [failuresFrom]
  | cons hd tl ih =>
      intro i
      obtain ⟨tc, bin⟩ := hd
      by_cases h : (run_single_test timeout tc bin).passed
      · simp [failuresFrom, List.enumFrom, List.filter_cons, h, ih (i + 1)]
      · simp only [Bool.not_eq_true] at h
        simp [failuresFrom, List.enumFrom, List.filter_cons, h, ih (i + 1)]

/-! ## Claim theorems -/

/-- Claim C1, counterexample: the code strips BOTH ends (`str.strip()`), not
only trailing whitespace. For actual stdout `" x"` and expected `"x"`, which
differ only in leading whitespace (their trailing-trimmed forms differ), the
outcome is Passed, not Mismatch as the claim states. -/
theorem C1_counterexample :
    pyRStrip " x" ≠ pyRStrip "x" ∧
    (run_single_test 5 { name := none, input := none, expected := some "x" }
        (fun _ => ExecBehavior.completed " x" "" 0)).passed = true ∧
    (run_single_test 5 { name := none, input := none, expected := some "x" }
        (fun _ => ExecBehavior.completed " x" "" 0)).error = none := by
  refine ⟨?_, rfl, rfl⟩
  decide

/-- Claim C1, amended: the evaluator strips leading AND trailing whitespace
from both strings (Python `str.strip()`) and compares by exact string
equality; the outcome is Passed exactly when the fully-trimmed strings are
equal, and otherwise the error is "Output mismatch". -/
theorem C1_amended (timeout : Nat) (tc : TestCase) (stdout stderr : String)
    (code : Int) :
    (run_single_test timeout tc
        (fun _ => ExecBehavior.completed stdout stderr code)).passed
      = decide (pyStrip stdout = pyStrip (tc.expected.getD "")) ∧
    (run_single_test timeout tc
        (fun _ => ExecBehavior.completed stdout stderr code)).error
      = (if pyStrip stdout = pyStrip (tc.expected.getD "") then none
         else some "Output mismatch") := by
  unfold run_single_test
  by_cases h : pyStrip stdout = pyStrip (tc.expected.getD "") <;> simp [h]

/-- Claim C2: after `run_all_tests` completes, `passed + failed = total`,
`total` is the number of test cases, and the failures list has length
`failed`; for the empty suite all three counts are 0. -/
theorem C2_run_invariant (timeout : Nat) (suite : Suite) :
    (run_all_tests timeout suite).passed + (run_all_tests timeout suite).failed
        = (run_all_tests timeout suite).total ∧
    (run_all_tests timeout suite).total = suite.length ∧
    (run_all_tests timeout suite).failures.length
        = (run_all_tests timeout suite).failed ∧
    run_all_tests timeout ([] : Suite)
        = { passed := 0, failed := 0, total := 0, failures := [] } := by
  rw [run_all_tests_eq]
  exact ⟨passCount_add_failCount timeout suite, rfl,
    failuresFrom_length timeout suite 1, rfl⟩

/-- Claim C3: the exit status of a completed run is 0 exactly when
`failed = 0` and 1 exactly when some test failed; a startup failure
(an exception before the run) exits 1. -/
theorem C3_exit_codes (timeout : Nat) (suite : Suite) (msg : String) :
    (mainExit timeout (Except.ok suite) = 0
        ↔ (run_all_tests timeout suite).failed = 0) ∧
    (mainExit timeout (Except.ok suite) = 1
        ↔ (run_all_tests timeout suite).failed ≠ 0) ∧
    mainExit timeout (Except.error msg) = 1 := by
  refine ⟨?_, ?_, rfl⟩ <;>
    · simp only [mainExit, print_summary_exit]
      by_cases h : (run_all_tests timeout suite).failed = 0 <;> simp [h]

/-- Claim C4: an exception raised while executing a single test is caught and
turned into a non-Passed result whose error preserves the exception's
message (`"Error: " ++ msg`); it never propagates, so a suite containing such
a test still runs every other test case (`total` counts them all). -/
theorem C4_exception_caught (timeout : Nat) (tc : TestCase) (msg : String)
    (pre post : Suite) :
    (run_single_test timeout tc (fun _ => ExecBehavior.raised msg)).passed
        = false ∧
    (run_single_test timeout tc (fun _ => ExecBehavior.raised msg)).error
        = some ("Error: " ++ msg) ∧
    (run_all_tests timeout
        (pre ++ (tc, fun _ => ExecBehavior.raised msg) :: post)).total
      = pre.length + 1 + post.length := by
  refine ⟨rfl, rfl, ?_⟩
  rw [run_all_tests_eq]
  simp
  omega

/-- Claim C5: a test whose child exceeds the timeout yields a non-Passed
outcome whose error message carries the configured limit, with no salvaged
output (`actual = none`); the loop increments `failed` by exactly 1 for it,
and the timeout branch kills the child process. -/
theorem C5_timeout (timeout i : Nat) (tc : TestCase) (r : Results) :
    (run_single_test timeout tc (fun _ => ExecBehavior.timeoutExpired)).passed
        = false ∧
    (run_single_test timeout tc (fun _ => ExecBehavior.timeoutExpired)).actual
        = none ∧
    (run_single_test timeout tc (fun _ => ExecBehavior.timeoutExpired)).error
        = some ("Timeout (" ++ toString timeout ++ "s)") ∧
    killsChild ExecBehavior.timeoutExpired = true ∧
    (processTest timeout r i tc (fun _ => ExecBehavior.timeoutExpired)).failed
        = r.failed + 1 := by
  exact ⟨rfl, rfl, rfl, rfl, rfl⟩

/-- Claim C6: the failures list is exactly one record per non-Passed test
case, in original suite order (the order-preserving filter of the 1-based
enumeration), never reordered or deduplicated; two cases with the same name
yield two independent records. -/
theorem C6_failures_order (timeout : Nat) (suite : Suite) :
    (run_all_tests timeout suite).failures =
      ((suite.enumFrom 1).filter
          (fun p => !(run_single_test timeout p.2.1 p.2.2).passed)).map
        (fun p =>
          { test := p.2.1.name.getD ("Test " ++ toString p.1)
            input := p.2.1.input.getD ""
            expected := p.2.1.expected.getD ""
            actual := (run_single_test timeout p.2.1 p.2.2).actual
            error := (run_single_test timeout p.2.1 p.2.2).error }) ∧
    (run_all_tests 5
        [({ name := some "dup", input := none, expected := some "a" },
          fun _ => ExecBehavior.timeoutExpired),
         ({ name := some "dup", input := none, expected := some "a" },
          fun _ => ExecBehavior.timeoutExpired)]).failures.length = 2 := by
  constructor
  · rw [run_all_tests_eq]
    exact failuresFrom_enum timeout suite 1
  · rfl

/-- Claim C7: the verdict depends only on the captured stdout and the
expected string; for equal stdout, any stderr contents and exit codes give
the identical single-test result. -/
theorem C7_stderr_irrelevant (timeout : Nat) (tc : TestCase)
    (stdout stderr1 stderr2 : String) (code1 code2 : Int) :
    run_single_test timeout tc
        (fun _ => ExecBehavior.completed stdout stderr1 code1)
      = run_single_test timeout tc
          (fun _ => ExecBehavior.completed stdout stderr2 code2) := rfl

/-- Claim C8: a missing `input` defaults to `""`, a missing `expected`
defaults to `""`, and a missing `name` defaults to the positional label
`"Test i"` in the loop (and the unused local default in the single-test
body); the loop step and the execution behave identically to a case with
those defaults filled in explicitly. -/
theorem C8_defaults (timeout i : Nat) (bin : String → ExecBehavior)
    (r : Results) :
    processTest timeout r i
        { name := none, input := none, expected := none } bin
      = processTest timeout r i
          { name := some ("Test " ++ toString i), input := some "",
            expected := some "" } bin ∧
    run_single_test timeout { name := none, input := none, expected := none }
        bin
      = run_single_test timeout
          { name := some "Unnamed test", input := some "",
            expected := some "" } bin := ⟨rfl, rfl⟩

/-- Claim C9: a failure record's `actual` is `none` exactly on the timeout
and exception paths, and is the trimmed captured stdout on the mismatch path
(a completed run that did not pass); both the summary block and the verbose
detail block emit an `Actual` line exactly when `actual` is present. -/
theorem C9_actual_presence (timeout : Nat) (tc : TestCase)
    (stdout stderr msg : String) (code : Int) (f : FailureInfo)
    (_h : (run_single_test timeout tc
        (fun _ => ExecBehavior.completed stdout stderr code)).passed = false) :
    (run_single_test timeout tc
        (fun _ => ExecBehavior.completed stdout stderr code)).actual
      = some (pyStrip stdout) ∧
    (run_single_test timeout tc (fun _ => ExecBehavior.timeoutExpired)).actual
      = none ∧
    (run_single_test timeout tc (fun _ => ExecBehavior.raised msg)).actual
      = none ∧
    ((∃ s, OutputLine.actualLine s ∈ summaryFailureLines f) ↔ f.actual.isSome) ∧
    ((∃ s, OutputLine.actualLine s ∈ print_failure_details f) ↔ f.actual.isSome)
    := by
  refine ⟨?_, rfl, rfl, ?_, ?_⟩
  · unfold run_single_test
    by_cases hc : pyStrip stdout = pyStrip (tc.expected.getD "") <;> simp [hc]
  · obtain ⟨t, i, e, a, er⟩ := f
    rcases a with _ | a <;> rcases er with _ | er <;>
      simp only [summaryFailureLines] <;>
      first
        | (by_cases he : er = "" <;> simp [he])
        | simp
  · obtain ⟨t, i, e, a, er⟩ := f
    rcases a with _ | a <;> rcases er with _ | er <;>
      simp only [print_failure_details] <;>
      first
        | (by_cases he : er = "" <;> simp [he])
        | simp

/-- Claim C9 witness: a concrete mismatching completed run has `actual`
equal to the trimmed stdout. -/
theorem C9_witness :
    (run_single_test 5 { name := none, input := none, expected := some "a" }
        (fun _ => ExecBehavior.completed "b" "" 0)).actual
      = some (pyStrip "b") :=
  (C9_actual_presence 5 { name := none, input := none, expected := some "a" }
    "b" "" "m" 0 { test := "t", input := "i", expected := "e",
                   actual := none, error := none } rfl).1

/-- Claim C10: for a non-Passed test, the appended failure record stores the
test case's original, untrimmed `input` and `expected` strings verbatim
(with the documented defaults when the fields are absent), even though the
comparison itself used trimmed strings. -/
theorem C10_record_verbatim (timeout i : Nat) (tc : TestCase)
    (bin : String → ExecBehavior) (r : Results)
    (h : (run_single_test timeout tc bin).passed = false) :
    (processTest timeout r i tc bin).failures =
      r.failures ++
        [{ test := tc.name.getD ("Test " ++ toString i)
           input := tc.input.getD ""
           expected := tc.expected.getD ""
           actual := (run_single_test timeout tc bin).actual
           error := (run_single_test timeout tc bin).error }] := by
  simp [processTest, h]

/-- Claim C10 witness: a timing-out test with padded `input`/`expected`
strings gets a failure record holding them untrimmed. -/
theorem C10_witness :
    (processTest 5 initResults 1
        { name := none, input := some " in ", expected := some " out " }
        (fun _ => ExecBehavior.timeoutExpired)).failures =
      initResults.failures ++
        [{ test := "Test 1", input := " in ", expected := " out ",
           actual := none, error := some "Timeout (5s)" }] :=
  C10_record_verbatim 5 1
    { name := none, input := some " in ", expected := some " out " }
    (fun _ => ExecBehavior.timeoutExpired) initResults rfl

end TestRunnerSpec
